import Mathlib

/-!
Shallow embedding of `src/Deployment/n64/src/renderer.c` (module `renderer`
of moisesjpelaez/n64_exporter).

Scalars: the C code computes with IEEE `float`.  We embed a float value as
either NaN or an exact rational; arithmetic propagates NaN and every ordered
comparison involving NaN is false, as in IEEE 754.  All concrete values
appearing in the claims (small integers, quaternion components 0 and 1) are
computed exactly by `float` arithmetic, so exact rationals are faithful there.
Infinities play no role in any claim and are not modelled.

External collaborators (libdragon / t3d drawing, lighting, HUD) are out of
scope of every claim and are not modelled; `t3d_mat4fp_from_srt` and
`t3d_frustum_vs_aabb` are abstracted (see their doc comments), and the
repository-internal helpers that are declared outside `src/`
(`transform_is_safe` from utils.h, `FB_COUNT` from engine.h) are modelled
from the spec as noted on their definitions.
-/

/-- One IEEE float value: NaN, or a finite value represented exactly. -/
inductive F where
  | nan : F
  | fin (q : ℚ) : F
deriving DecidableEq

def F.add : F → F → F
  | F.nan, _ => F.nan
  | _, F.nan => F.nan
  | F.fin a, F.fin b => F.fin (a + b)

def F.mul : F → F → F
  | F.nan, _ => F.nan
  | _, F.nan => F.nan
  | F.fin a, F.fin b => F.fin (a * b)

def F.sub : F → F → F
  | F.nan, _ => F.nan
  | _, F.nan => F.nan
  | F.fin a, F.fin b => F.fin (a - b)

def F.neg : F → F
  | F.nan => F.nan
  | F.fin a => F.fin (-a)

/-- IEEE ordered less-than: any comparison with NaN is false. -/
def F.lt : F → F → Bool
  | F.fin a, F.fin b => decide (a < b)
  | _, _ => false

instance : Add F := ⟨F.add⟩
instance : Mul F := ⟨F.mul⟩
instance : Sub F := ⟨F.sub⟩
instance : Neg F := ⟨F.neg⟩
instance (n : ℕ) : OfNat F n := ⟨F.fin (OfNat.ofNat n)⟩

/-- A `T3DVec3`: three float components. -/
structure Vec3 where
  x : F
  y : F
  z : F
deriving DecidableEq

/-- A `T3DQuat`: quaternion components `v[0..3]` = x, y, z, w. -/
structure Quat where
  x : F
  y : F
  z : F
  w : F
deriving DecidableEq

/-- The zero vector `(T3DVec3){{0.0f, 0.0f, 0.0f}}` written on sanitization. -/
def origin : Vec3 := ⟨0, 0, 0⟩

/-- A composed model matrix.  `t3d_mat4fp_from_srt` is an external t3d
routine that deterministically composes a scale-rotate-translate matrix from
its three inputs; we model its result abstractly by the exact inputs it was
invoked with, which preserves byte-identity of matrix slots and lets the
development observe which values reached the composition. -/
structure SRT where
  scale : Vec3
  rot : Quat
  loc : Vec3
deriving DecidableEq

instance : Inhabited SRT := ⟨⟨origin, ⟨0, 0, 0, 0⟩, origin⟩⟩

/-- Abstraction of the external `t3d_mat4fp_from_srt(out, scale, rot, loc)`
call at renderer.c:47: the stored slot records the inputs of the call. -/
def t3d_mat4fp_from_srt (s : Vec3) (r : Quat) (l : Vec3) : SRT := ⟨s, r, l⟩

/-- The `transform` member of `ArmObject` (types.h is outside src/; the
fields used by renderer.c are `loc`, `rot`, `scale`, `dirty`, with `dirty`
a non-negative counter per the spec). -/
structure Transform where
  loc : Vec3
  rot : Quat
  scale : Vec3
  dirty : ℕ
deriving DecidableEq

/-- An `ArmObject`, restricted to the fields renderer.c reads or writes.
`model_mat` is the per-slot matrix array `model_mat[FB_COUNT]`; `dpl` is the
opaque precompiled display-list pointer, `none` when not loaded, with a
numeric tag standing for the pointed-to command block. -/
structure ArmObject where
  transform : Transform
  bounds_min : Vec3
  bounds_max : Vec3
  cached_world_aabb_min : Vec3
  cached_world_aabb_max : Vec3
  model_mat : List SRT
  is_static : Bool
  visible : Bool
  is_removed : Bool
  dpl : Option ℕ
deriving DecidableEq

/-- An `ArmScene`, restricted to what `renderer_update_objects` and the
object loop of `renderer_draw_scene` touch: the object array (its length is
`object_count`).  Cameras, lights and world colors feed only unmodelled
external t3d calls. -/
structure ArmScene where
  objects : List ArmObject
deriving DecidableEq

/-- Modelled from the spec: `transform_is_safe` is repository code declared
via utils.h, outside src/.  Per spec section 4.1 it returns whether a
location/scale pair is safe: every component finite (no NaN/Inf) and within
a bounded, renderer-defined numeric range; the renderer-defined bound is
modelled by the constant `TRANSFORM_LIMIT`. -/
def TRANSFORM_LIMIT : ℚ := 100000

def scalar_is_safe : F → Bool
  | F.nan => false
  | F.fin q => decide (-TRANSFORM_LIMIT ≤ q ∧ q ≤ TRANSFORM_LIMIT)

def vec_is_safe (v : Vec3) : Bool :=
  scalar_is_safe v.x && scalar_is_safe v.y && scalar_is_safe v.z

/-- Modelled from the spec: see `vec_is_safe` / `TRANSFORM_LIMIT`. -/
def transform_is_safe (loc scale : Vec3) : Bool :=
  vec_is_safe loc && vec_is_safe scale

/-- The 3x3 rotation matrix `m` built from the quaternion, renderer.c:55-67. -/
structure Mat3 where
  m00 : F
  m01 : F
  m02 : F
  m10 : F
  m11 : F
  m12 : F
  m20 : F
  m21 : F
  m22 : F

def rotFromQuat (q : Quat) : Mat3 :=
  let qx := q.x
  let qy := q.y
  let qz := q.z
  let qw := q.w
  let xx := qx * qx
  let yy := qy * qy
  let zz := qz * qz
  let xy := qx * qy
  let xz := qx * qz
  let yz := qy * qz
  let wx := qw * qx
  let wy := qw * qy
  let wz := qw * qz
  { m00 := 1 - 2 * (yy + zz), m01 := 2 * (xy - wz),     m02 := 2 * (xz + wy)
    m10 := 2 * (xy + wz),     m11 := 1 - 2 * (xx + zz), m12 := 2 * (yz - wx)
    m20 := 2 * (xz - wy),     m21 := 2 * (yz + wx),     m22 := 1 - 2 * (xx + yy) }

/-- One inner-loop step of Arvo's method, renderer.c:73-81: accumulate the
contributions `a = m[i][j]*bounds_min[j]`, `b = m[i][j]*bounds_max[j]` into
the running (min, max) pair, branching on `a < b` (false for NaN, as in C). -/
def aabb_step (acc : F × F) (mij bminj bmaxj : F) : F × F :=
  let a := mij * bminj
  let b := mij * bmaxj
  if F.lt a b then (acc.1 + a, acc.2 + b) else (acc.1 + b, acc.2 + a)

/-- One world axis `i` of the AABB loop, renderer.c:69-83: start both
accumulators at `loc[i]` and fold the three local axes in order. -/
def aabb_axis (loci mi0 mi1 mi2 : F) (bmin bmax : Vec3) : F × F :=
  let p0 := aabb_step (loci, loci) mi0 bmin.x bmax.x
  let p1 := aabb_step p0 mi1 bmin.y bmax.y
  aabb_step p1 mi2 bmin.z bmax.z

/-- The cached world AABB computed at renderer.c:54-84 from the rotation
quaternion, the location and the local bounds. -/
def world_aabb (q : Quat) (loc bmin bmax : Vec3) : Vec3 × Vec3 :=
  let m := rotFromQuat q
  let ax := aabb_axis loc.x m.m00 m.m01 m.m02 bmin bmax
  let ay := aabb_axis loc.y m.m10 m.m11 m.m12 bmin bmax
  let az := aabb_axis loc.z m.m20 m.m21 m.m22 bmin bmax
  (⟨ax.1, ay.1, az.1⟩, ⟨ax.2, ay.2, az.2⟩)

/-- The slot index `obj->is_static ? 0 : frameIdx`, appearing identically at
renderer.c:46 (update) and renderer.c:134 (draw). -/
def active_slot (is_st : Bool) (frameIdx : ℕ) : ℕ :=
  if is_st then 0 else frameIdx

/-- The sanitization at renderer.c:41-44: when `transform_is_safe` rejects
the location/scale pair, reset the location to the origin and clear the
visibility flag; nothing else changes. -/
def sanitize_object (obj : ArmObject) : ArmObject :=
  if transform_is_safe obj.transform.loc obj.transform.scale then obj
  else
    { obj with
      transform := { obj.transform with loc := origin }
      visible := false }

/-- The unconditional tail of the update loop body, renderer.c:46-86:
compose the SRT matrix into the active slot, recompute the cached world
AABB, and decrement `dirty` by one. -/
def recompute_object (frameIdx : ℕ) (obj : ArmObject) : ArmObject :=
  { obj with
    model_mat := obj.model_mat.set (active_slot obj.is_static frameIdx)
      (t3d_mat4fp_from_srt obj.transform.scale obj.transform.rot obj.transform.loc)
    cached_world_aabb_min :=
      (world_aabb obj.transform.rot obj.transform.loc obj.bounds_min obj.bounds_max).1
    cached_world_aabb_max :=
      (world_aabb obj.transform.rot obj.transform.loc obj.bounds_min obj.bounds_max).2
    transform := { obj.transform with dirty := obj.transform.dirty - 1 } }

/-- The body of the loop of `renderer_update_objects`, renderer.c:28-87,
for one object: skip removed objects, skip clean objects, otherwise
sanitize, recompose the matrix, recompute the AABB, decrement `dirty`. -/
def update_object (frameIdx : ℕ) (obj : ArmObject) : ArmObject :=
  if obj.is_removed then obj
  else if obj.transform.dirty = 0 then obj
  else recompute_object frameIdx (sanitize_object obj)

/-- `renderer_update_objects`, renderer.c:27-88.  `frameIdx` is the static
module-level frame index, passed explicitly. -/
def renderer_update_objects (frameIdx : ℕ) (scene : ArmScene) : ArmScene :=
  { scene with objects := scene.objects.map (update_object frameIdx) }

/-- Whether the loop body of `renderer_update_objects` performs the
recomputation work for this object, i.e. passes both `continue` guards
(renderer.c:32-38). -/
def update_recomputes (obj : ArmObject) : Bool :=
  !obj.is_removed && !(obj.transform.dirty = 0)

/-- Number of recomputations performed on (the evolving state of) one object
by `n` successive runs of `renderer_update_objects`. -/
def run_count (frameIdx : ℕ) : ℕ → ArmObject → ℕ
  | 0, _ => 0
  | n + 1, obj =>
    (if update_recomputes obj then 1 else 0) + run_count frameIdx n (update_object frameIdx obj)

/-- The frame-index advance `frameIdx = (frameIdx + 1) % FB_COUNT` at
renderer.c:91.  `FB_COUNT` comes from engine.h (outside src/) and is kept a
parameter `fb`; the spec calls it `SLOT_COUNT`. -/
def frame_advance (fb idx : ℕ) : ℕ := (idx + 1) % fb

/-- A draw-command execution observed in the object loop of
`renderer_draw_scene`: the matrix bound by `t3d_matrix_set` (renderer.c:135)
and the display-list block run by `rspq_block_run` (renderer.c:136). -/
structure DrawCall where
  mat : SRT
  dpl : ℕ
deriving DecidableEq

/-- The body of the draw loop, renderer.c:117-137, for one object, with the
external frustum test `t3d_frustum_vs_aabb` abstracted as the parameter
`fv` (a function of the two cached world-AABB corners): skip invisible
objects, skip objects failing the frustum test, skip objects with no display
list; otherwise bind the active-slot matrix and run the block. -/
def draw_select (fv : Vec3 → Vec3 → Bool) (frameIdx : ℕ) (obj : ArmObject) :
    Option DrawCall :=
  if !obj.visible then none
  else if !(fv obj.cached_world_aabb_min obj.cached_world_aabb_max) then none
  else
    match obj.dpl with
    | none => none
    | some d =>
      some ⟨obj.model_mat.getD (active_slot obj.is_static frameIdx) default, d⟩

/-- Result of one `renderer_draw_scene` call: the new frame index, the scene
after the embedded `renderer_update_objects` pass, and per object (in scene
order) the draw-command execution it produced, if any. -/
structure DrawResult where
  frameIdx : ℕ
  scene : ArmScene
  calls : List (Option DrawCall)
deriving DecidableEq

/-- `renderer_draw_scene`, renderer.c:90-151, restricted to the state this
module owns: advance the frame index (renderer.c:91), run
`renderer_update_objects` (renderer.c:92), then walk the objects selecting
and executing draw commands (renderer.c:117-137).  Screen clearing, lighting
and the debug HUD are external t3d/rdpq calls touching no modelled state. -/
def renderer_draw_scene (fb : ℕ) (fv : Vec3 → Vec3 → Bool) (frameIdx : ℕ)
    (scene : ArmScene) : DrawResult :=
  let fi2 := frame_advance fb frameIdx
  let scene2 := renderer_update_objects fi2 scene
  ⟨fi2, scene2, scene2.objects.map (draw_select fv fi2)⟩

/-! Basic lemmas about the update pass. -/

theorem sanitize_object_safe (obj : ArmObject)
    (h : transform_is_safe obj.transform.loc obj.transform.scale = true) :
    sanitize_object obj = obj := by
  simp [sanitize_object, h]

theorem sanitize_object_reject (obj : ArmObject)
    (h : transform_is_safe obj.transform.loc obj.transform.scale = false) :
    sanitize_object obj =
      { obj with transform := { obj.transform with loc := origin }, visible := false } := by
  simp [sanitize_object, h]

theorem update_object_clean (f : ℕ) (obj : ArmObject)
    (h : obj.transform.dirty = 0) : update_object f obj = obj := by
  unfold update_object
  simp [h]

theorem update_object_is_removed (f : ℕ) (obj : ArmObject) :
    (update_object f obj).is_removed = obj.is_removed := by
  unfold update_object recompute_object sanitize_object
  split
  · rfl
  split
  · rfl
  split <;> rfl

theorem update_object_dirty_step (f : ℕ) (obj : ArmObject)
    (hr : obj.is_removed = false) (hd : obj.transform.dirty ≠ 0) :
    (update_object f obj).transform.dirty = obj.transform.dirty - 1 := by
  unfold update_object recompute_object sanitize_object
  rw [hr]
  rw [if_neg (by simp), if_neg hd]
  split <;> rfl

@[simp] theorem F.fin_add_fin (a b : ℚ) : F.fin a + F.fin b = F.fin (a + b) := rfl

@[simp] theorem F.fin_mul_fin (a b : ℚ) : F.fin a * F.fin b = F.fin (a * b) := rfl

@[simp] theorem F.fin_sub_fin (a b : ℚ) : F.fin a - F.fin b = F.fin (a - b) := rfl

@[simp] theorem F.neg_fin (a : ℚ) : -(F.fin a) = F.fin (-a) := rfl

@[simp] theorem F.lt_fin_fin (a b : ℚ) : F.lt (F.fin a) (F.fin b) = decide (a < b) := rfl

@[simp] theorem F.ofNat_eq_fin (n : ℕ) : (OfNat.ofNat n : F) = F.fin (OfNat.ofNat n) := rfl

theorem update_object_dirty_eq (f : ℕ) (obj : ArmObject)
    (hr : obj.is_removed = false) (hd : obj.transform.dirty ≠ 0) :
    update_object f obj = recompute_object f (sanitize_object obj) := by
  unfold update_object
  rw [hr]
  rw [if_neg (by simp), if_neg hd]

theorem transform_unsafe_of_nan (loc scale : Vec3)
    (h : loc.x = F.nan ∨ loc.y = F.nan ∨ loc.z = F.nan) :
    transform_is_safe loc scale = false := by
  rcases h with h | h | h <;> simp [transform_is_safe, vec_is_safe, h, scalar_is_safe]

/-! Concrete objects used by witnesses and counterexamples. -/

/-- A fully safe dynamic object: identity rotation, location (2,3,4),
unit local bounds, one pending dirty frame, loaded display list. -/
def objSafe : ArmObject :=
  { transform := { loc := ⟨2, 3, 4⟩, rot := ⟨0, 0, 0, 1⟩, scale := ⟨1, 1, 1⟩, dirty := 1 }
    bounds_min := ⟨-1, -1, -1⟩
    bounds_max := ⟨1, 1, 1⟩
    cached_world_aabb_min := origin
    cached_world_aabb_max := origin
    model_mat := [default, default, default]
    is_static := false
    visible := true
    is_removed := false
    dpl := some 7 }

/-- An object with a safe location but a NaN scale component, so the
location/scale pair fails the validator through the scale alone. -/
def objC2 : ArmObject :=
  { transform := { loc := ⟨5, 6, 7⟩, rot := ⟨0, 0, 0, 1⟩, scale := ⟨F.nan, 1, 1⟩, dirty := 1 }
    bounds_min := ⟨-1, -1, -1⟩
    bounds_max := ⟨1, 1, 1⟩
    cached_world_aabb_min := origin
    cached_world_aabb_max := origin
    model_mat := [default]
    is_static := true
    visible := true
    is_removed := false
    dpl := none }

/-- The safe object with its visibility flag cleared. -/
def objHidden : ArmObject := { objSafe with visible := false }

/-- The safe object with three pending dirty frames. -/
def objC3 : ArmObject :=
  { objSafe with transform := { objSafe.transform with dirty := 3 } }

/-- The safe object with no pending dirty frames. -/
def objClean : ArmObject :=
  { objSafe with transform := { objSafe.transform with dirty := 0 } }

/-- The safe object with a NaN location component. -/
def objNanLoc : ArmObject :=
  { objSafe with transform := { objSafe.transform with loc := ⟨F.nan, 0, 0⟩ } }

/-- C2: the claim as stated is false on the code.  At this input the
location/scale pair is rejected by the validator solely because of the NaN
scale component, yet the matrix composition receives that very (unsafe)
scale unchanged: the slot written by the update holds the rejected scale. -/
theorem C2_counterexample :
    objC2.is_removed = false ∧ 0 < objC2.transform.dirty ∧
    transform_is_safe objC2.transform.loc objC2.transform.scale = false ∧
    vec_is_safe objC2.transform.scale = false ∧
    ((update_object 0 objC2).model_mat.getD 0 default).scale = objC2.transform.scale := by
  decide

/-- C2 (amended): for every non-removed object with dirty > 0 whose
location/scale pair fails the transform validator, the location is reset to
the origin and the visibility flag is cleared before the model matrix is
composed, so the unsafe location never reaches the composition; the scale,
however, is passed to the composition unchanged. -/
theorem C2_reject_resets_location (f : ℕ) (obj : ArmObject)
    (hr : obj.is_removed = false) (hd : 0 < obj.transform.dirty)
    (hs : transform_is_safe obj.transform.loc obj.transform.scale = false) :
    (update_object f obj).transform.loc = origin ∧
    (update_object f obj).visible = false ∧
    (update_object f obj).model_mat = obj.model_mat.set (active_slot obj.is_static f)
      (t3d_mat4fp_from_srt obj.transform.scale obj.transform.rot origin) := by
  rw [update_object_dirty_eq f obj hr hd.ne', sanitize_object_reject obj hs]
  exact ⟨rfl, rfl, rfl⟩

theorem C2_reject_resets_location_witness :
    objC2.is_removed = false ∧ 0 < objC2.transform.dirty ∧
    transform_is_safe objC2.transform.loc objC2.transform.scale = false ∧
    ((update_object 0 objC2).transform.loc = origin ∧
     (update_object 0 objC2).visible = false ∧
     (update_object 0 objC2).model_mat = objC2.model_mat.set (active_slot objC2.is_static 0)
       (t3d_mat4fp_from_srt objC2.transform.scale objC2.transform.rot origin)) :=
  ⟨by decide, by decide, by decide,
   C2_reject_resets_location 0 objC2 (by decide) (by decide) (by decide)⟩

/-- C4: for a non-removed object with dirty > 0, a transform passing the
validator, identity rotation quaternion (0,0,0,1), location (2,3,4) and
local bounds (-1,-1,-1)..(1,1,1), the update produces the cached world AABB
(1,2,3)..(3,4,5). -/
theorem C4_identity_rotation (f : ℕ) (obj : ArmObject)
    (hr : obj.is_removed = false) (hd : 0 < obj.transform.dirty)
    (hs : transform_is_safe obj.transform.loc obj.transform.scale = true)
    (hrot : obj.transform.rot = ⟨0, 0, 0, 1⟩)
    (hloc : obj.transform.loc = ⟨2, 3, 4⟩)
    (hbmin : obj.bounds_min = ⟨-1, -1, -1⟩)
    (hbmax : obj.bounds_max = ⟨1, 1, 1⟩) :
    (update_object f obj).cached_world_aabb_min = ⟨1, 2, 3⟩ ∧
    (update_object f obj).cached_world_aabb_max = ⟨3, 4, 5⟩ := by
  rw [update_object_dirty_eq f obj hr hd.ne', sanitize_object_safe obj hs]
  constructor
  · show (world_aabb obj.transform.rot obj.transform.loc obj.bounds_min obj.bounds_max).1 = _
    rw [hrot, hloc, hbmin, hbmax]
    simp only [world_aabb, aabb_axis, aabb_step, rotFromQuat, F.ofNat_eq_fin, F.neg_fin,
      F.fin_mul_fin, F.fin_add_fin, F.fin_sub_fin, F.lt_fin_fin, decide_eq_true_eq]
    norm_num
  · show (world_aabb obj.transform.rot obj.transform.loc obj.bounds_min obj.bounds_max).2 = _
    rw [hrot, hloc, hbmin, hbmax]
    simp only [world_aabb, aabb_axis, aabb_step, rotFromQuat, F.ofNat_eq_fin, F.neg_fin,
      F.fin_mul_fin, F.fin_add_fin, F.fin_sub_fin, F.lt_fin_fin, decide_eq_true_eq]
    norm_num

theorem C4_identity_rotation_witness :
    objSafe.is_removed = false ∧ 0 < objSafe.transform.dirty ∧
    transform_is_safe objSafe.transform.loc objSafe.transform.scale = true ∧
    objSafe.transform.rot = ⟨0, 0, 0, 1⟩ ∧ objSafe.transform.loc = ⟨2, 3, 4⟩ ∧
    objSafe.bounds_min = ⟨-1, -1, -1⟩ ∧ objSafe.bounds_max = ⟨1, 1, 1⟩ ∧
    ((update_object 0 objSafe).cached_world_aabb_min = ⟨1, 2, 3⟩ ∧
     (update_object 0 objSafe).cached_world_aabb_max = ⟨3, 4, 5⟩) :=
  ⟨by decide, by decide, by decide, by decide, by decide, by decide, by decide,
   C4_identity_rotation 0 objSafe (by decide) (by decide) (by decide) rfl rfl rfl rfl⟩

/-- C5: for every non-removed object with dirty > 0 whose location has a NaN
component, after `renderer_update_objects` the object's location is exactly
the origin and its visible flag is false; the update is total (no exception)
and the object remains in the scene (the object array keeps its length and
the slot still holds the object). -/
theorem C5_nan_location_sanitized (f : ℕ) (scene : ArmScene) (i : ℕ) (obj : ArmObject)
    (hi : scene.objects[i]? = some obj) (hr : obj.is_removed = false)
    (hd : 0 < obj.transform.dirty)
    (hnan : obj.transform.loc.x = F.nan ∨ obj.transform.loc.y = F.nan ∨
      obj.transform.loc.z = F.nan) :
    (renderer_update_objects f scene).objects[i]? = some (update_object f obj) ∧
    (update_object f obj).transform.loc = origin ∧
    (update_object f obj).visible = false ∧
    (renderer_update_objects f scene).objects.length = scene.objects.length := by
  have hs := transform_unsafe_of_nan obj.transform.loc obj.transform.scale hnan
  refine ⟨?_, ?_, ?_, ?_⟩
  · show (scene.objects.map (update_object f))[i]? = _
    rw [List.getElem?_map _ _ _, hi]
    rfl
  · rw [update_object_dirty_eq f obj hr hd.ne', sanitize_object_reject obj hs]
    rfl
  · rw [update_object_dirty_eq f obj hr hd.ne', sanitize_object_reject obj hs]
    rfl
  · show (scene.objects.map (update_object f)).length = _
    simp

theorem C5_nan_location_sanitized_witness :
    (ArmScene.mk [objNanLoc]).objects[0]? = some objNanLoc ∧
    objNanLoc.is_removed = false ∧ 0 < objNanLoc.transform.dirty ∧
    objNanLoc.transform.loc.x = F.nan ∧
    ((renderer_update_objects 0 (ArmScene.mk [objNanLoc])).objects[0]? =
       some (update_object 0 objNanLoc) ∧
     (update_object 0 objNanLoc).transform.loc = origin ∧
     (update_object 0 objNanLoc).visible = false ∧
     (renderer_update_objects 0 (ArmScene.mk [objNanLoc])).objects.length =
       (ArmScene.mk [objNanLoc]).objects.length) :=
  ⟨rfl, by decide, by decide, by decide,
   C5_nan_location_sanitized 0 (ArmScene.mk [objNanLoc]) 0 objNanLoc rfl (by decide)
     (by decide) (Or.inl (by decide))⟩

/-- C6: for every object with dirty == 0 (removed or not), running
`renderer_update_objects` leaves the object in its slot entirely unchanged:
model matrix slots, cached world AABB and all other fields are identical. -/
theorem C6_clean_object_unchanged (f : ℕ) (scene : ArmScene) (i : ℕ) (obj : ArmObject)
    (hi : scene.objects[i]? = some obj) (hd : obj.transform.dirty = 0) :
    (renderer_update_objects f scene).objects[i]? = some obj := by
  show (scene.objects.map (update_object f))[i]? = _
  rw [List.getElem?_map _ _ _, hi]
  simp [update_object_clean f obj hd]

theorem C6_clean_object_unchanged_witness :
    (ArmScene.mk [objC2, objClean]).objects[1]? = some objClean ∧
    objClean.transform.dirty = 0 ∧
    (renderer_update_objects 2 (ArmScene.mk [objC2, objClean])).objects[1]? =
      some objClean :=
  ⟨rfl, by decide,
   C6_clean_object_unchanged 2 (ArmScene.mk [objC2, objClean]) 1 objClean rfl (by decide)⟩

/-- C9: when the validator rejects a non-removed object with dirty > 0, the
update does not bail out: it still composes and stores the model matrix and
recomputes the cached world AABB, both from the reset origin location
together with the object's existing rotation and scale, and still decrements
dirty by exactly one, just as on the valid path. -/
theorem C9_reject_still_recomputes (f : ℕ) (obj : ArmObject)
    (hr : obj.is_removed = false) (hd : 0 < obj.transform.dirty)
    (hs : transform_is_safe obj.transform.loc obj.transform.scale = false) :
    (update_object f obj).model_mat = obj.model_mat.set (active_slot obj.is_static f)
      (t3d_mat4fp_from_srt obj.transform.scale obj.transform.rot origin) ∧
    (update_object f obj).cached_world_aabb_min =
      (world_aabb obj.transform.rot origin obj.bounds_min obj.bounds_max).1 ∧
    (update_object f obj).cached_world_aabb_max =
      (world_aabb obj.transform.rot origin obj.bounds_min obj.bounds_max).2 ∧
    (update_object f obj).transform.dirty = obj.transform.dirty - 1 := by
  rw [update_object_dirty_eq f obj hr hd.ne', sanitize_object_reject obj hs]
  exact ⟨rfl, rfl, rfl, rfl⟩

theorem C9_reject_still_recomputes_witness :
    objNanLoc.is_removed = false ∧ 0 < objNanLoc.transform.dirty ∧
    transform_is_safe objNanLoc.transform.loc objNanLoc.transform.scale = false ∧
    ((update_object 2 objNanLoc).model_mat =
       objNanLoc.model_mat.set (active_slot objNanLoc.is_static 2)
         (t3d_mat4fp_from_srt objNanLoc.transform.scale objNanLoc.transform.rot origin) ∧
     (update_object 2 objNanLoc).cached_world_aabb_min =
       (world_aabb objNanLoc.transform.rot origin objNanLoc.bounds_min
         objNanLoc.bounds_max).1 ∧
     (update_object 2 objNanLoc).cached_world_aabb_max =
       (world_aabb objNanLoc.transform.rot origin objNanLoc.bounds_min
         objNanLoc.bounds_max).2 ∧
     (update_object 2 objNanLoc).transform.dirty = objNanLoc.transform.dirty - 1) :=
  ⟨by decide, by decide, by decide,
   C9_reject_still_recomputes 2 objNanLoc (by decide) (by decide) (by decide)⟩

/-- C10: the update pass ignores the visible flag: for every non-removed
object with dirty > 0 whose visible flag is false, the matrix composition
(into the active slot, with the post-sanitization location), the cached
world AABB recomputation and the dirty decrement are all still performed. -/
theorem C10_hidden_object_still_updated (f : ℕ) (obj : ArmObject)
    (hr : obj.is_removed = false) (hd : 0 < obj.transform.dirty)
    (_hv : obj.visible = false) :
    (update_object f obj).model_mat = obj.model_mat.set (active_slot obj.is_static f)
      (t3d_mat4fp_from_srt obj.transform.scale obj.transform.rot
        (if transform_is_safe obj.transform.loc obj.transform.scale then obj.transform.loc
         else origin)) ∧
    (update_object f obj).cached_world_aabb_min =
      (world_aabb obj.transform.rot
        (if transform_is_safe obj.transform.loc obj.transform.scale then obj.transform.loc
         else origin) obj.bounds_min obj.bounds_max).1 ∧
    (update_object f obj).cached_world_aabb_max =
      (world_aabb obj.transform.rot
        (if transform_is_safe obj.transform.loc obj.transform.scale then obj.transform.loc
         else origin) obj.bounds_min obj.bounds_max).2 ∧
    (update_object f obj).transform.dirty = obj.transform.dirty - 1 := by
  rw [update_object_dirty_eq f obj hr hd.ne']
  by_cases hsafe : transform_is_safe obj.transform.loc obj.transform.scale = true
  · rw [sanitize_object_safe obj hsafe]
    simp only [hsafe, if_true]
    exact ⟨rfl, rfl, rfl, rfl⟩
  · have hsafe2 : transform_is_safe obj.transform.loc obj.transform.scale = false := by
      simpa using hsafe
    rw [sanitize_object_reject obj hsafe2]
    simp only [hsafe2, Bool.false_eq_true, if_false]
    exact ⟨rfl, rfl, rfl, rfl⟩

theorem C10_hidden_object_still_updated_witness :
    objHidden.is_removed = false ∧ 0 < objHidden.transform.dirty ∧
    objHidden.visible = false ∧
    ((update_object 1 objHidden).model_mat =
       objHidden.model_mat.set (active_slot objHidden.is_static 1)
         (t3d_mat4fp_from_srt objHidden.transform.scale objHidden.transform.rot
           (if transform_is_safe objHidden.transform.loc objHidden.transform.scale then
              objHidden.transform.loc
            else origin)) ∧
     (update_object 1 objHidden).cached_world_aabb_min =
       (world_aabb objHidden.transform.rot
         (if transform_is_safe objHidden.transform.loc objHidden.transform.scale then
            objHidden.transform.loc
          else origin) objHidden.bounds_min objHidden.bounds_max).1 ∧
     (update_object 1 objHidden).cached_world_aabb_max =
       (world_aabb objHidden.transform.rot
         (if transform_is_safe objHidden.transform.loc objHidden.transform.scale then
            objHidden.transform.loc
          else origin) objHidden.bounds_min objHidden.bounds_max).2 ∧
     (update_object 1 objHidden).transform.dirty = objHidden.transform.dirty - 1) :=
  ⟨by decide, by decide, by decide,
   C10_hidden_object_still_updated 1 objHidden (by decide) (by decide) (by decide)⟩

theorem iter_update_dirty (f : ℕ) (j : ℕ) :
    ∀ (obj : ArmObject), obj.is_removed = false → j ≤ obj.transform.dirty →
    ((update_object f)^[j] obj).transform.dirty = obj.transform.dirty - j ∧
    ((update_object f)^[j] obj).is_removed = false := by
  induction j with
  | zero => intro obj hr _; simp [hr]
  | succ n ih =>
    intro obj hr hj
    rw [Function.iterate_succ_apply]
    have hd : obj.transform.dirty ≠ 0 := by omega
    have h1 : (update_object f obj).is_removed = false := by
      rw [update_object_is_removed f obj, hr]
    have h2 := update_object_dirty_step f obj hr hd
    have h3 := ih (update_object f obj) h1 (by omega)
    exact ⟨by rw [h3.1, h2]; omega, h3.2⟩

theorem run_count_min (f : ℕ) (n : ℕ) :
    ∀ (obj : ArmObject), obj.is_removed = false →
    run_count f n obj = min n obj.transform.dirty := by
  induction n with
  | zero => intro obj _; simp [run_count]
  | succ m ih =>
    intro obj hr
    by_cases hd : obj.transform.dirty = 0
    · have hrec : update_recomputes obj = false := by simp [update_recomputes, hr, hd]
      simp only [run_count, hrec, if_false, Bool.false_eq_true]
      rw [update_object_clean f obj hd, ih obj hr, hd]
      omega
    · have hrec : update_recomputes obj = true := by simp [update_recomputes, hr, hd]
      have h1 : (update_object f obj).is_removed = false := by
        rw [update_object_is_removed f obj, hr]
      simp only [run_count, hrec, if_true]
      rw [ih (update_object f obj) h1, update_object_dirty_step f obj hr hd]
      omega

/-- C3: for every non-removed object, setting dirty = k and running
`renderer_update_objects` k times drives dirty to 0 while performing exactly
k recomputations — after j runs (j ≤ k) dirty is k - j, so each run with
dirty > 0 recomputes once and decrements dirty by exactly one — and a
(k+1)-th run performs no recomputation and changes nothing, leaving dirty
at 0. -/
theorem C3_dirty_decay (f k j : ℕ) (obj : ArmObject)
    (hr : obj.is_removed = false) (hk : obj.transform.dirty = k) (hj : j ≤ k) :
    ((update_object f)^[k] obj).transform.dirty = 0 ∧
    run_count f k obj = k ∧
    ((update_object f)^[j] obj).transform.dirty = k - j ∧
    update_object f ((update_object f)^[k] obj) = (update_object f)^[k] obj ∧
    run_count f (k + 1) obj = k := by
  have hiterk := iter_update_dirty f k obj hr (by omega)
  have hiterj := iter_update_dirty f j obj hr (by omega)
  have hzero : ((update_object f)^[k] obj).transform.dirty = 0 := by
    rw [hiterk.1, hk]; omega
  refine ⟨hzero, ?_, ?_, ?_, ?_⟩
  · rw [run_count_min f k obj hr, hk]; omega
  · rw [hiterj.1, hk]
  · exact update_object_clean f _ hzero
  · rw [run_count_min f (k + 1) obj hr, hk]; omega

theorem C3_dirty_decay_witness :
    objC3.is_removed = false ∧ objC3.transform.dirty = 3 ∧ 2 ≤ 3 ∧
    (((update_object 0)^[3] objC3).transform.dirty = 0 ∧
     run_count 0 3 objC3 = 3 ∧
     ((update_object 0)^[2] objC3).transform.dirty = 3 - 2 ∧
     update_object 0 ((update_object 0)^[3] objC3) = (update_object 0)^[3] objC3 ∧
     run_count 0 4 objC3 = 3) :=
  ⟨by decide, by decide, by decide,
   C3_dirty_decay 0 3 2 objC3 (by decide) (by decide) (by decide)⟩

theorem iter_frame_advance (fb i : ℕ) (j : ℕ) :
    (frame_advance fb)^[j + 1] i = (i + 1 + j) % fb := by
  induction j with
  | zero => simp [frame_advance]
  | succ n ih =>
    rw [Function.iterate_succ_apply', ih]
    show ((i + 1 + n) % fb + 1) % fb = (i + 1 + (n + 1)) % fb
    rw [Nat.mod_add_mod]
    congr 1

theorem mod_shift_inj (fb c a b : ℕ) (ha : a < fb) (hb : b < fb)
    (h : (c + a) % fb = (c + b) % fb) : a = b := by
  have h2 : a ≡ b [MOD fb] := Nat.ModEq.add_left_cancel' c h
  rwa [Nat.ModEq, Nat.mod_eq_of_lt ha, Nat.mod_eq_of_lt hb] at h2

theorem mod_shift_surj (fb c v : ℕ) (hfb : 0 < fb) (hv : v < fb) :
    ∃ j, j < fb ∧ (c + 1 + j) % fb = v := by
  have hr : (c + 1) % fb < fb := Nat.mod_lt _ hfb
  by_cases hle : (c + 1) % fb ≤ v
  · refine ⟨v - (c + 1) % fb, by omega, ?_⟩
    rw [← Nat.mod_add_mod]
    have h2 : (c + 1) % fb + (v - (c + 1) % fb) = v := by omega
    rw [h2, Nat.mod_eq_of_lt hv]
  · refine ⟨v + fb - (c + 1) % fb, by omega, ?_⟩
    rw [← Nat.mod_add_mod]
    have h2 : (c + 1) % fb + (v + fb - (c + 1) % fb) = v + fb := by omega
    rw [h2, Nat.add_mod_right, Nat.mod_eq_of_lt hv]

/-- C7: each `renderer_draw_scene` call advances the frame-buffer slot index
to (frameIdx + 1) mod FB_COUNT, and over FB_COUNT consecutive calls starting
from any initial index the sequence of active slot indices visits every
value in 0..FB_COUNT-1 exactly once (no duplicates, length FB_COUNT, and a
value occurs in the sequence precisely when it is below FB_COUNT). -/
theorem C7_slot_rotation (fb idx0 v : ℕ) (fv : Vec3 → Vec3 → Bool) (scene : ArmScene)
    (hfb : 0 < fb) :
    (renderer_draw_scene fb fv idx0 scene).frameIdx = frame_advance fb idx0 ∧
    ((List.range fb).map (fun j => (frame_advance fb)^[j + 1] idx0)).Nodup ∧
    ((List.range fb).map (fun j => (frame_advance fb)^[j + 1] idx0)).length = fb ∧
    (v ∈ (List.range fb).map (fun j => (frame_advance fb)^[j + 1] idx0) ↔ v < fb) := by
  have hmap : (List.range fb).map (fun j => (frame_advance fb)^[j + 1] idx0) =
      (List.range fb).map (fun j => (idx0 + 1 + j) % fb) := by
    apply List.map_congr_left
    intro a _
    exact iter_frame_advance fb idx0 a
  refine ⟨rfl, ?_, ?_, ?_⟩
  · rw [hmap]
    refine (List.nodup_range fb).map_on ?_
    intro x hx y hy hxy
    exact mod_shift_inj fb (idx0 + 1) x y (List.mem_range.mp hx) (List.mem_range.mp hy) hxy
  · simp
  · rw [hmap]
    constructor
    · intro hvm
      rcases List.mem_map.mp hvm with ⟨a, _, ha⟩
      rw [← ha]
      exact Nat.mod_lt _ hfb
    · intro hvlt
      rcases mod_shift_surj fb idx0 v hfb hvlt with ⟨j, hj, hjv⟩
      exact List.mem_map.mpr ⟨j, List.mem_range.mpr hj, hjv⟩

theorem C7_slot_rotation_witness :
    0 < 3 ∧
    ((renderer_draw_scene 3 (fun _ _ => true) 5 (ArmScene.mk [])).frameIdx =
       frame_advance 3 5 ∧
     ((List.range 3).map (fun j => (frame_advance 3)^[j + 1] 5)).Nodup ∧
     ((List.range 3).map (fun j => (frame_advance 3)^[j + 1] 5)).length = 3 ∧
     (2 ∈ (List.range 3).map (fun j => (frame_advance 3)^[j + 1] 5) ↔ 2 < 3)) :=
  ⟨by decide, C7_slot_rotation 3 5 2 (fun _ _ => true) (ArmScene.mk []) (by decide)⟩

theorem draw_calls_get (fb : ℕ) (fv : Vec3 → Vec3 → Bool) (fi : ℕ) (scene : ArmScene)
    (i : ℕ) (obj2 : ArmObject)
    (hupd : (renderer_update_objects (frame_advance fb fi) scene).objects[i]? = some obj2) :
    (renderer_draw_scene fb fv fi scene).calls[i]? =
      some (draw_select fv (frame_advance fb fi) obj2) := by
  show ((renderer_update_objects (frame_advance fb fi) scene).objects.map
    (draw_select fv (frame_advance fb fi)))[i]? = _
  rw [List.getElem?_map _ _ _, hupd]
  rfl

theorem draw_select_mat (fv : Vec3 → Vec3 → Bool) (fi : ℕ) (obj2 : ArmObject) (c : DrawCall)
    (h : draw_select fv fi obj2 = some c) :
    c.mat = obj2.model_mat.getD (active_slot obj2.is_static fi) default := by
  unfold draw_select at h
  split at h
  · exact absurd h (by simp)
  split at h
  · exact absurd h (by simp)
  cases hdpl : obj2.dpl <;> rw [hdpl] at h
  · exact absurd h (by simp)
  · simp only [Option.some.injEq] at h
    rw [← h]

/-- An object that is logically removed yet still visible, with a loaded
display list and clean transform. -/
def objC1 : ArmObject :=
  { transform := { loc := origin, rot := ⟨0, 0, 0, 1⟩, scale := ⟨1, 1, 1⟩, dirty := 0 }
    bounds_min := ⟨-1, -1, -1⟩
    bounds_max := ⟨1, 1, 1⟩
    cached_world_aabb_min := origin
    cached_world_aabb_max := origin
    model_mat := [default, default]
    is_static := false
    visible := true
    is_removed := true
    dpl := some 1 }

/-- C1: the claim as stated is false on the code.  The object loop of
`renderer_draw_scene` (renderer.c:117-137) never consults `is_removed`: at
this concrete input the object is removed (`is_removed = true`) and yet its
matrix is bound and its display-list block is run (the per-object call list
contains its draw-command execution). -/
theorem C1_counterexample :
    objC1.is_removed = true ∧ objC1.visible = true ∧ objC1.dpl = some 1 ∧
    (renderer_draw_scene 2 (fun _ _ => true) 0 (ArmScene.mk [objC1])).calls =
      [some (DrawCall.mk default 1)] := by
  exact ⟨rfl, rfl, rfl, rfl⟩

/-- C1 (amended): in `renderer_draw_scene`, for every object in the scene
(in its post-update state), the object's draw commands are executed — its
matrix bound and its precompiled command block run — if and only if all
three of these hold: visible is true, the frustum-vs-cached-world-AABB test
passes, and the draw-command block (dpl) is present.  The `is_removed` flag
is not consulted by the draw loop. -/
theorem C1_draw_selection (fb : ℕ) (fv : Vec3 → Vec3 → Bool) (fi : ℕ) (scene : ArmScene)
    (i : ℕ) (obj2 : ArmObject)
    (hupd : (renderer_update_objects (frame_advance fb fi) scene).objects[i]? = some obj2) :
    (renderer_draw_scene fb fv fi scene).calls[i]? =
      some (draw_select fv (frame_advance fb fi) obj2) ∧
    (draw_select fv (frame_advance fb fi) obj2 ≠ none ↔
      (obj2.visible = true ∧
       fv obj2.cached_world_aabb_min obj2.cached_world_aabb_max = true ∧
       obj2.dpl ≠ none)) := by
  refine ⟨draw_calls_get fb fv fi scene i obj2 hupd, ?_⟩
  unfold draw_select
  cases hv : obj2.visible
  · simp [hv]
  · cases hfv : fv obj2.cached_world_aabb_min obj2.cached_world_aabb_max
    · simp [hv, hfv]
    · cases hdpl : obj2.dpl
      · simp [hv, hfv, hdpl]
      · simp [hv, hfv, hdpl]

theorem C1_draw_selection_witness :
    (renderer_update_objects (frame_advance 3 0) (ArmScene.mk [objSafe])).objects[0]? =
      some (update_object 1 objSafe) ∧
    ((renderer_draw_scene 3 (fun _ _ => true) 0 (ArmScene.mk [objSafe])).calls[0]? =
       some (draw_select (fun _ _ => true) (frame_advance 3 0) (update_object 1 objSafe)) ∧
     (draw_select (fun _ _ => true) (frame_advance 3 0) (update_object 1 objSafe) ≠ none ↔
       ((update_object 1 objSafe).visible = true ∧
        (fun _ _ => true) (update_object 1 objSafe).cached_world_aabb_min
          (update_object 1 objSafe).cached_world_aabb_max = true ∧
        (update_object 1 objSafe).dpl ≠ none))) :=
  ⟨rfl, C1_draw_selection 3 (fun _ _ => true) 0 (ArmScene.mk [objSafe]) 0
    (update_object 1 objSafe) rfl⟩

/-- C8: for every object selected for drawing, the bound matrix is read from
`model_mat` at the active slot — slot 0 when is_static (so, whatever the
frame index j, the static slot index is 0), else the current frame index's
slot — and `renderer_update_objects` writes the composed matrix to that same
slot expression for any non-removed dirty object. -/
theorem C8_slot_binding (fb j g fi i : ℕ) (fv : Vec3 → Vec3 → Bool) (scene : ArmScene)
    (obj2 obj : ArmObject) (c : DrawCall)
    (hupd : (renderer_update_objects (frame_advance fb fi) scene).objects[i]? = some obj2)
    (hsel : (renderer_draw_scene fb fv fi scene).calls[i]? = some (some c))
    (hr : obj.is_removed = false) (hd : 0 < obj.transform.dirty) :
    c.mat = obj2.model_mat.getD (active_slot obj2.is_static (frame_advance fb fi)) default ∧
    active_slot true j = 0 ∧
    (update_object g obj).model_mat = obj.model_mat.set (active_slot obj.is_static g)
      (t3d_mat4fp_from_srt obj.transform.scale obj.transform.rot
        (if transform_is_safe obj.transform.loc obj.transform.scale then obj.transform.loc
         else origin)) := by
  refine ⟨?_, rfl, ?_⟩
  · have h1 := draw_calls_get fb fv fi scene i obj2 hupd
    rw [h1] at hsel
    exact draw_select_mat fv (frame_advance fb fi) obj2 c (Option.some.inj hsel)
  · rw [update_object_dirty_eq g obj hr hd.ne']
    by_cases hsafe : transform_is_safe obj.transform.loc obj.transform.scale = true
    · rw [sanitize_object_safe obj hsafe]
      simp only [hsafe, if_true]
      rfl
    · have hsafe2 : transform_is_safe obj.transform.loc obj.transform.scale = false := by
        simpa using hsafe
      rw [sanitize_object_reject obj hsafe2]
      simp only [hsafe2, Bool.false_eq_true, if_false]
      rfl

theorem C8_slot_binding_witness :
    (renderer_update_objects (frame_advance 3 0) (ArmScene.mk [objSafe])).objects[0]? =
      some (update_object 1 objSafe) ∧
    (renderer_draw_scene 3 (fun _ _ => true) 0 (ArmScene.mk [objSafe])).calls[0]? =
      some (some (DrawCall.mk ((update_object 1 objSafe).model_mat.getD 1 default) 7)) ∧
    objHidden.is_removed = false ∧ 0 < objHidden.transform.dirty ∧
    ((DrawCall.mk ((update_object 1 objSafe).model_mat.getD 1 default) 7).mat =
       (update_object 1 objSafe).model_mat.getD
         (active_slot (update_object 1 objSafe).is_static (frame_advance 3 0)) default ∧
     active_slot true 9 = 0 ∧
     (update_object 2 objHidden).model_mat =
       objHidden.model_mat.set (active_slot objHidden.is_static 2)
         (t3d_mat4fp_from_srt objHidden.transform.scale objHidden.transform.rot
           (if transform_is_safe objHidden.transform.loc objHidden.transform.scale then
              objHidden.transform.loc
            else origin))) :=
  ⟨rfl, rfl, by decide, by decide,
   C8_slot_binding 3 9 2 0 0 (fun _ _ => true) (ArmScene.mk [objSafe])
     (update_object 1 objSafe) objHidden
     (DrawCall.mk ((update_object 1 objSafe).model_mat.getD 1 default) 7)
     rfl rfl (by decide) (by decide)⟩
